import Mathlib

/-!
Shallow embedding of the TuDo-Makerspace Jukebox runtime control core
(`Software/jukebox.py`, with the older `RPi/jukebox.py` variant where it
differs), together with proofs of the behavioural claims about keypad
decoding, track resolution, playback control, light-pattern timing and the
soundboard sample cache.

Conventions of the embedding:
* Python strings stay `String`, dicts become ordered association lists
  (`List (key × value)`, insertion-ordered like Python dicts).
* Python floats in the tempo arithmetic are modelled as exact rationals `ℚ`.
* The filesystem is passed in explicitly: a songs directory is the ordered
  list of file names `glob` would enumerate; a soundboard bank is a flag
  (directory exists?) plus the ordered list of its `.wav` files.
* Side effects (lamp writes, asset playback, spawning/terminating the
  player process, the light thread) are recorded in an explicit `Event`
  trace, in program order.
* A Python exception escaping a function is an `Except.error`.
-/

/-- A raw 4-bit keypad sample: one boolean per GPIO input pin
(`GPIO_KEYPAD_PINS`), `true` = high (1). -/
abbrev PinVector := Bool × Bool × Bool × Bool

/-- `KEYPAD_LOOKUP` from `Software/jukebox.py`: the fixed dict mapping raw
pin vectors to key symbols, transcribed entry by entry ((0,1,0,1) ↦ "0",
…, (1,1,0,0) ↦ "RED"). -/
def KEYPAD_LOOKUP : List (PinVector × String) :=
  [ ((false, true, false, true), "0"),
    ((true, false, true, true), "1"),
    ((true, false, false, true), "2"),
    ((true, false, true, false), "3"),
    ((false, false, true, true), "4"),
    ((false, false, false, true), "5"),
    ((false, false, true, false), "6"),
    ((true, true, true, true), "7"),
    ((true, true, false, true), "8"),
    ((true, true, true, false), "9"),
    ((false, true, true, true), "R"),
    ((false, true, true, false), "G"),
    ((true, false, false, false), "YELLOW"),
    ((false, true, false, false), "BLUE"),
    ((true, true, false, false), "RED") ]

/-- `KEYPAD_TAKE_SAMPLES` from `Software/jukebox.py`. -/
def KEYPAD_TAKE_SAMPLES : Nat := 10

/-- `MAX_BANK_NUMBER` from `Software/jukebox.py`. -/
def MAX_BANK_NUMBER : Nat := 9

/-- The dict lookup `KEYPAD_LOOKUP[read] if read in KEYPAD_LOOKUP else None`
at the end of `read_keypad_input`. -/
def lookupKeypad (v : PinVector) : Option String :=
  KEYPAD_LOOKUP.lookup v

/-- `max(set(samples), key=samples.count)` in `read_keypad_input`: the most
frequent sample. Python iterates the set in unspecified order; the model
iterates distinct samples in first-occurrence order (`dedup`), which agrees
with Python whenever the maximiser is unique (in particular on constant
sample lists). Python's `max` on an empty sequence raises; the model is
only ever applied to non-empty sample lists and returns `none` on `[]`. -/
def majority_vote (samples : List PinVector) : Option PinVector :=
  samples.dedup.argmax (fun v => samples.count v)

/-- `read_keypad_input` from `Software/jukebox.py`, with the raw GPIO
samples of one call passed in as `samples`. `KEYPAD_TAKE_SAMPLES = 10 > 1`,
so the majority-vote branch is taken; otherwise a single sample is used. -/
def read_keypad_input (samples : List PinVector) : Option String :=
  let read := if 1 < KEYPAD_TAKE_SAMPLES then majority_vote samples else samples.head?
  match read with
  | some v => lookupKeypad v
  | none => none

/-- Does `name` match the glob pattern `"<n>_*.<ext>"`? (`*` matches any
character string, possibly empty; file names contain no path separator.) -/
def globMatch (n : Nat) (ext : String) (name : String) : Bool :=
  let pre := (toString n ++ "_").toList
  let suf := ("." ++ ext).toList
  pre.isPrefixOf name.toList && suf.isSuffixOf name.toList &&
    pre.length + suf.length ≤ name.toList.length

/-- `song_path` from `Software/jukebox.py`: globs only `f"{number}_*.mp3"`
over the songs directory (given as the ordered list of its file names) and
returns the first match, or `None` when there is none. -/
def song_path_SW (number : Nat) (dir : List String) : Option String :=
  (dir.filter (globMatch number "mp3")).head?

/-- `song_path` from `RPi/jukebox.py`: globs `f"{number}_*.mp3"` and then
`f"{number}_*.wav"` and returns the first match of the concatenated result
list, or `None` when there is none. -/
def song_path_RPi (number : Nat) (dir : List String) : Option String :=
  (dir.filter (globMatch number "mp3") ++ dir.filter (globMatch number "wav")).head?

/-- `delay = 60 / bpm` in `show_light_pattern` (identical in both variants):
no speed multiplier and no lower clamp. -/
def show_light_pattern_delay (bpm : ℚ) : ℚ :=
  60 / bpm

/-- `delay = max(60 / (bpm * bpm_multiplier), 0.1)` in
`random_lights_thread` of `Software/jukebox.py`. -/
def random_lights_delay (bpm bpm_multiplier : ℚ) : ℚ :=
  max (60 / (bpm * bpm_multiplier)) (1 / 10)

/-- A decoded in-memory audio sample: the `params` dict plus PCM data, as
cached by `preload_assets` / `preload_soundboard_samples`. -/
structure AudioSample where
  channels : Nat
  framerate : Nat
  sampwidth : Nat
  data : List Int
deriving DecidableEq

/-- Ordered association list standing for a Python dict keyed by strings. -/
abbrev SampleMap := List (String × AudioSample)

/-- Python dict assignment `m[k] = v`: replace in place when the key is
present, else append (insertion order preserved). -/
def dictInsert (m : SampleMap) (k : String) (v : AudioSample) : SampleMap :=
  if m.any (fun p => p.1 == k) then
    m.map (fun p => if p.1 == k then (k, v) else p)
  else
    m ++ [(k, v)]

/-- The two module-level caches `asset_samples` and `soundboard_samples`. -/
structure CacheState where
  asset : SampleMap
  soundboard : SampleMap

/-- A `.wav` file of a soundboard bank directory: its file name and the
decoded audio it contains. -/
structure WavFile where
  name : String
  sample : AudioSample

/-- `sample_file.stem.split("_")[0].upper()` for a file name ending in
`".wav"`. -/
def sampleKeyOfFile (name : String) : String :=
  ((((name.dropRight 4).splitOn "_").headD "").toUpper)

/-- The key filter of `preload_soundboard_samples`:
`key_match.isdigit() or key_match in {"R", "G", "RED", "BLUE"}`. -/
def validSampleKey (key : String) : Bool :=
  (key.length > 0 && key.toList.all Char.isDigit) ||
    ["R", "G", "RED", "BLUE"].contains key

/-- The body of the per-file loop of `preload_soundboard_samples`, acting on
the `soundboard_samples` dict: derive the key from the file name, skip
unsupported keys, skip sample rates other than 44100/48000, else store. -/
def loadOneSB (sb : SampleMap) (f : WavFile) : SampleMap :=
  let key := sampleKeyOfFile f.name
  if validSampleKey key then
    if f.sample.framerate == 44100 || f.sample.framerate == 48000 then
      dictInsert sb key f.sample
    else sb
  else sb

/-- Observable side effects, recorded in program order. -/
inductive Event where
  | setAllLamps (b : Bool)
  | playAsset (key : String)
  | playSample (key : String)
  | bpmTag
  | spawnPlayer
  | terminatePlayer
  | startLightsThread
  | stopLightsThread
deriving DecidableEq

/-- The per-file loop step lifted to the whole cache state (it reads and
writes only `soundboard_samples`). -/
def loadStep (s : CacheState) (f : WavFile) : CacheState :=
  { s with soundboard := loadOneSB s.soundboard f }

/-- `preload_soundboard_samples(bank)` from `Software/jukebox.py`.
`dirExists` is `bank_path.is_dir()`, `files` the ordered result of
`bank_path.glob("*.wav")`: lamps on; early return on a missing bank
directory; otherwise `soundboard_samples.clear()` then load each `.wav`
file; lamps off. -/
def preload_soundboard_samples (st : CacheState) (dirExists : Bool)
    (files : List WavFile) : CacheState × List Event :=
  if dirExists then
    let st1 : CacheState := { st with soundboard := [] }
    let st2 := (files.filter (fun f => ".wav".toList.isSuffixOf f.name.toList)).foldl loadStep st1
    (st2, [Event.setAllLamps true, Event.setAllLamps false])
  else
    (st, [Event.setAllLamps true, Event.setAllLamps false])

/-- The per-bank environment of soundboard mode: whether each bank's
directory exists and which `.wav` files it holds. -/
structure SoundboardEnv where
  dirExists : Nat → Bool
  files : Nat → List WavFile

/-- One accepted-key iteration of the `soundboard()` loop of
`Software/jukebox.py` (key already non-`None`): YELLOW exits, RED moves to
the next bank or plays BANK_OUT_OF_RANGE when already at
`MAX_BANK_NUMBER`, BLUE moves to the previous bank or plays
BANK_OUT_OF_RANGE at bank 0, anything else plays the sample. Returns the
new bank, the new cache state and the event trace of the iteration. -/
def soundboard_step (env : SoundboardEnv) (bank : Nat) (st : CacheState)
    (key : String) : Nat × CacheState × List Event :=
  if key == "YELLOW" then
    (bank, st, [Event.playAsset "PRESS"])
  else if key == "RED" then
    if bank < MAX_BANK_NUMBER then
      let r := preload_soundboard_samples st (env.dirExists (bank + 1)) (env.files (bank + 1))
      (bank + 1, r.1, Event.playAsset "PRESS" :: r.2)
    else
      (bank, st, [Event.playAsset "PRESS", Event.playAsset "BANK_OUT_OF_RANGE"])
  else if key == "BLUE" then
    if 0 < bank then
      let r := preload_soundboard_samples st (env.dirExists (bank - 1)) (env.files (bank - 1))
      (bank - 1, r.1, Event.playAsset "PRESS" :: r.2)
    else
      (bank, st, [Event.playAsset "PRESS", Event.playAsset "BANK_OUT_OF_RANGE"])
  else
    (bank, st, [Event.playSample key])

/-- Python exceptions the model distinguishes. -/
inductive PyExc where
  | attributeError
deriving DecidableEq

/-- `PlayReturn` from `Software/jukebox.py`. -/
inductive PlayReturn where
  | TRACK_NOT_FOUND
  | ABORTED
  | FINISHED
deriving DecidableEq

/-- The environment one call of `play` runs in: the result of `song_path`,
whether the `ffplay` binary exists, for how many poll-loop iterations
`proc.poll()` still reports the player alive, the keypad read of each
poll-loop iteration, and the keypad read of the post-abort debounce
check. -/
structure PlayEnv where
  resolved : Option String
  ffplayInstalled : Bool
  aliveFor : Nat
  reads : Nat → Option String
  readAfter : Option String

/-- The `while proc.poll() is None:` loop of `play`: while the player is
alive, read the keypad; on RED terminate the player and break with
`aborted = True`. Returns the aborted flag and the events of the loop. -/
def pollLoop : Nat → (Nat → Option String) → Bool × List Event
  | 0, _ => (false, [])
  | a + 1, reads =>
    if reads 0 = some "RED" then (true, [Event.terminatePlayer])
    else pollLoop a (fun i => reads (i + 1))

/-- `play(number)` from `Software/jukebox.py`, over a `PlayEnv`. The
unresolved-track branch lights all lamps, plays TRACK_NOT_FOUND and
switches the lamps off. Otherwise: lamps on, LOAD asset joined with the
BPM analysis, then `play_song(spath, blocking=False)`. When `ffplay` is
missing, `play_song` catches `FileNotFoundError`, logs and returns `None`;
`play` then evaluates `proc.poll()` on `None`, which raises
`AttributeError`; the `finally:` block still stops the light thread and
switches the lamps off, and the exception escapes `play`. With a live
process the poll loop runs; afterwards the light thread is stopped, lamps
go off, and an aborted run performs the extra debounce (which is
`debounce_and_await_release`, lamps on then off, when RED is still held,
or a plain sleep otherwise). -/
def play (env : PlayEnv) : Except PyExc PlayReturn × List Event :=
  match env.resolved with
  | none =>
    (Except.ok PlayReturn.TRACK_NOT_FOUND,
     [Event.setAllLamps true, Event.playAsset "TRACK_NOT_FOUND", Event.setAllLamps false])
  | some _ =>
    let pre : List Event := [Event.setAllLamps true, Event.playAsset "LOAD", Event.bpmTag]
    if env.ffplayInstalled then
      let res := pollLoop env.aliveFor env.reads
      let post : List Event :=
        [Event.stopLightsThread, Event.setAllLamps false] ++
          (if res.1 then
            (if env.readAfter = some "RED" then
              [Event.setAllLamps true, Event.setAllLamps false]
            else [])
          else [])
      (Except.ok (if res.1 then PlayReturn.ABORTED else PlayReturn.FINISHED),
       pre ++ [Event.spawnPlayer, Event.startLightsThread] ++ res.2 ++ post)
    else
      (Except.error PyExc.attributeError,
       pre ++ [Event.startLightsThread, Event.stopLightsThread, Event.setAllLamps false])

/-- The lamp state (all three banks are always written together by
`set_all_lamps`) after a trace, starting from `init`. -/
def lampState (init : Bool) (tr : List Event) : Bool :=
  tr.foldl (fun s e => match e with | Event.setAllLamps b => b | _ => s) init

/-! ## Helper lemmas -/

theorem mem_of_head?_some {α : Type} {l : List α} {a : α}
    (h : l.head? = some a) : a ∈ l := by
  cases l with
  | nil => cases h
  | cons b t =>
    rw [List.head?_cons] at h
    injection h with hba
    subst hba
    exact List.mem_cons_self b t

theorem mem_of_head?_filter {α : Type} {p : α → Bool} {l : List α} {a : α}
    (h : (l.filter p).head? = some a) : a ∈ l ∧ p a = true :=
  List.mem_filter.mp (mem_of_head?_some h)

theorem pollLoop_no_red (a : Nat) (reads : Nat → Option String)
    (h : ∀ i, i < a → ¬reads i = some "RED") :
    pollLoop a reads = (false, []) := by
  induction a generalizing reads with
  | zero => rfl
  | succ n ih =>
    have h0 : ¬reads 0 = some "RED" := h 0 (Nat.succ_pos n)
    simp only [pollLoop, if_neg h0]
    exact ih _ (fun i hi => h (i + 1) (Nat.succ_lt_succ hi))

theorem pollLoop_red (a : Nat) (reads : Nat → Option String)
    (h : ∃ i, i < a ∧ reads i = some "RED") :
    pollLoop a reads = (true, [Event.terminatePlayer]) := by
  induction a generalizing reads with
  | zero =>
    obtain ⟨i, hi, _⟩ := h
    exact absurd hi (Nat.not_lt_zero i)
  | succ n ih =>
    by_cases h0 : reads 0 = some "RED"
    · simp only [pollLoop, if_pos h0]
    · simp only [pollLoop, if_neg h0]
      apply ih
      obtain ⟨i, hi, hr⟩ := h
      cases i with
      | zero => exact absurd hr h0
      | succ j => exact ⟨j, Nat.lt_of_succ_lt_succ hi, hr⟩

theorem foldl_loadStep_asset (files : List WavFile) :
    ∀ s : CacheState, (files.foldl loadStep s).asset = s.asset := by
  induction files with
  | nil => intro s; rfl
  | cons f t ih => intro s; exact ih (loadStep s f)

theorem foldl_loadStep_soundboard (files : List WavFile) :
    ∀ s s' : CacheState, s.soundboard = s'.soundboard →
      (files.foldl loadStep s).soundboard = (files.foldl loadStep s').soundboard := by
  induction files with
  | nil => intro s s' h; exact h
  | cons f t ih =>
    intro s s' h
    exact ih _ _ (by simp only [loadStep, h])

/-! ## Claims -/

/-- C1: the claim says a missing `ffplay` binary makes `play` log and
return normally (treated as Finished), never raising. The code instead
raises: `play_song` catches the `FileNotFoundError` and returns `None`
(as its docstring promises), but `play` passes the `None` straight to
`proc.poll()`, so an `AttributeError` escapes `play`. This theorem
evaluates the embedded `play` at a concrete failing input: a resolvable
track with `ffplay` missing ends in the error, not `FINISHED`. -/
theorem play_crash_when_ffplay_missing :
    play ⟨some "5_Song.mp3", false, 0, fun _ => none, none⟩ =
      (Except.error PyExc.attributeError,
       [Event.setAllLamps true, Event.playAsset "LOAD", Event.bpmTag,
        Event.startLightsThread, Event.stopLightsThread, Event.setAllLamps false]) := rfl

/-- C2: for a resolved track with the player installed, `play` returns
`FINISHED` when no RED keypad read occurs while the player process is
alive (and never terminates the player), and returns `ABORTED` when RED
is read while the player is alive, having terminated the player process
before returning. -/
theorem play_finished_or_aborted (env : PlayEnv) (p : String)
    (hres : env.resolved = some p) (hff : env.ffplayInstalled = true) :
    ((∀ i, i < env.aliveFor → ¬env.reads i = some "RED") →
      (play env).1 = Except.ok PlayReturn.FINISHED ∧
        Event.terminatePlayer ∉ (play env).2) ∧
    ((∃ i, i < env.aliveFor ∧ env.reads i = some "RED") →
      (play env).1 = Except.ok PlayReturn.ABORTED ∧
        Event.terminatePlayer ∈ (play env).2) := by
  constructor
  · intro h
    have hp := pollLoop_no_red env.aliveFor env.reads h
    constructor
    · simp [play, hres, hff, hp]
    · simp [play, hres, hff, hp]
  · intro h
    have hp := pollLoop_red env.aliveFor env.reads h
    constructor
    · simp [play, hres, hff, hp]
    · simp [play, hres, hff, hp]

/-- C2 witness: a run with the player alive for two polls and no RED read
finishes, and a run that reads RED on the second poll aborts with the
player terminated. -/
theorem play_finished_or_aborted_witness :
    ((play ⟨some "7_Song.mp3", true, 2, fun _ => none, none⟩).1 =
        Except.ok PlayReturn.FINISHED ∧
      Event.terminatePlayer ∉
        (play ⟨some "7_Song.mp3", true, 2, fun _ => none, none⟩).2) ∧
    ((play ⟨some "7_Song.mp3", true, 3,
        fun i => if i == 1 then some "RED" else none, some "RED"⟩).1 =
        Except.ok PlayReturn.ABORTED ∧
      Event.terminatePlayer ∈
        (play ⟨some "7_Song.mp3", true, 3,
          fun i => if i == 1 then some "RED" else none, some "RED"⟩).2) :=
  ⟨(play_finished_or_aborted _ "7_Song.mp3" rfl rfl).1 (by intro i _ h; simp at h),
   (play_finished_or_aborted _ "7_Song.mp3" rfl rfl).2 ⟨1, by simp⟩⟩

/-- C3: for a track number with no matching file, `play` returns
`TRACK_NOT_FOUND`, its whole effect trace is lamps on, the
TRACK_NOT_FOUND asset, lamps off (in that order), and all lamps are off
when it returns, whatever they were before. -/
theorem play_track_not_found (env : PlayEnv) (h : env.resolved = none) (b : Bool) :
    play env = (Except.ok PlayReturn.TRACK_NOT_FOUND,
      [Event.setAllLamps true, Event.playAsset "TRACK_NOT_FOUND",
       Event.setAllLamps false]) ∧
    lampState b (play env).2 = false := by
  have hp : play env = (Except.ok PlayReturn.TRACK_NOT_FOUND,
      [Event.setAllLamps true, Event.playAsset "TRACK_NOT_FOUND",
       Event.setAllLamps false]) := by
    simp [play, h]
  exact ⟨hp, by rw [hp]; rfl⟩

/-- C3 witness at a concrete unresolved environment, with lamps initially
on. -/
theorem play_track_not_found_witness :
    play ⟨none, true, 0, fun _ => none, none⟩ =
      (Except.ok PlayReturn.TRACK_NOT_FOUND,
       [Event.setAllLamps true, Event.playAsset "TRACK_NOT_FOUND",
        Event.setAllLamps false]) ∧
    lampState true (play ⟨none, true, 0, fun _ => none, none⟩).2 = false :=
  play_track_not_found _ rfl true

/-- C4 counterexample: the claim says track resolution finds `<n>_*.wav`
files too, and returns no path exactly when neither extension matches.
The `Software/jukebox.py` variant globs only `<n>_*.mp3`: with a songs
directory holding only `5_Song.wav` it returns no path although a `.wav`
file matches. -/
theorem song_path_wav_counterexample :
    song_path_SW 5 ["5_Song.wav"] = none ∧
    globMatch 5 "wav" "5_Song.wav" = true := by
  exact ⟨rfl, rfl⟩

/-- C4 (amended): in the `RPi/jukebox.py` variant, `song_path` returns a
file of the directory matching `<n>_*.mp3` or `<n>_*.wav` and returns
`None` exactly when no file of either extension matches; the
`Software/jukebox.py` variant considers only `<n>_*.mp3`, returning a
matching `.mp3` file when one exists and `None` exactly when no `.mp3`
matches (so `.wav`-only tracks are not found there). In both variants the
pick among several matches is the first in glob order. -/
theorem song_path_resolution (n : Nat) (dir : List String) :
    (∀ f, song_path_SW n dir = some f → f ∈ dir ∧ globMatch n "mp3" f = true) ∧
    (song_path_SW n dir = none ↔ ∀ f ∈ dir, ¬globMatch n "mp3" f = true) ∧
    (∀ f, song_path_RPi n dir = some f →
      f ∈ dir ∧ (globMatch n "mp3" f = true ∨ globMatch n "wav" f = true)) ∧
    (song_path_RPi n dir = none ↔
      ∀ f ∈ dir, ¬globMatch n "mp3" f = true ∧ ¬globMatch n "wav" f = true) := by
  refine ⟨?_, ?_, ?_, ?_⟩
  · intro f h
    exact mem_of_head?_filter h
  · simp [song_path_SW, List.head?_eq_none_iff, List.filter_eq_nil_iff]
  · intro f h
    have hf := mem_of_head?_some h
    rcases List.mem_append.mp hf with hf' | hf'
    · obtain ⟨h1, h2⟩ := List.mem_filter.mp hf'
      exact ⟨h1, Or.inl h2⟩
    · obtain ⟨h1, h2⟩ := List.mem_filter.mp hf'
      exact ⟨h1, Or.inr h2⟩
  · constructor
    · intro h f hf
      have := List.append_eq_nil.mp
        (List.head?_eq_none_iff.mp h)
      constructor
      · exact (List.filter_eq_nil_iff.mp this.1) f hf
      · exact (List.filter_eq_nil_iff.mp this.2) f hf
    · intro h
      have h1 : dir.filter (globMatch n "mp3") = [] :=
        List.filter_eq_nil_iff.mpr (fun f hf => (h f hf).1)
      have h2 : dir.filter (globMatch n "wav") = [] :=
        List.filter_eq_nil_iff.mpr (fun f hf => (h f hf).2)
      simp [song_path_RPi, h1, h2]

/-- C4 witness: with the songs directory `[5_x.mp3]`, the Software
variant resolves track 5 to that file, which matches the mp3 pattern. -/
theorem song_path_resolution_witness :
    "5_x.mp3" ∈ ["5_x.mp3"] ∧ globMatch 5 "mp3" "5_x.mp3" = true :=
  (song_path_resolution 5 ["5_x.mp3"]).1 "5_x.mp3" rfl

/-- C5 counterexample: the claim says every lamp-pattern rendering
operation clamps the frame delay to at least 0.1 s. `show_light_pattern`
computes `60 / bpm` with no clamp: at 1200 BPM its delay is 0.05 s,
below 0.1 s and different from the claimed clamped value. -/
theorem show_light_pattern_delay_counterexample :
    show_light_pattern_delay 1200 < 1 / 10 ∧
    ¬show_light_pattern_delay 1200 = max (60 / (1200 * 1)) (1 / 10) := by
  constructor <;> norm_num [show_light_pattern_delay]

/-- C5 (amended): only `random_lights_thread` clamps: its delay is
exactly `max (60 / (bpm * multiplier)) 0.1`, never below 0.1 s, and
monotonically non-increasing in bpm. `show_light_pattern` uses the
unclamped `60 / bpm` (no multiplier), which is also non-increasing in bpm
but can drop below 0.1 s at high tempo. -/
theorem light_pattern_delay_spec (bpm bpm' m : ℚ) (hb : 0 < bpm)
    (hb' : bpm ≤ bpm') (hm : m = 1 ∨ m = 2) :
    random_lights_delay bpm m = max (60 / (bpm * m)) (1 / 10) ∧
    1 / 10 ≤ random_lights_delay bpm m ∧
    random_lights_delay bpm' m ≤ random_lights_delay bpm m ∧
    show_light_pattern_delay bpm' ≤ show_light_pattern_delay bpm := by
  have hm0 : (0 : ℚ) < m := by rcases hm with h | h <;> rw [h] <;> norm_num
  refine ⟨rfl, le_max_right _ _, ?_, ?_⟩
  · unfold random_lights_delay
    apply max_le_max _ le_rfl
    have hbm : 0 < bpm * m := mul_pos hb hm0
    gcongr
  · unfold show_light_pattern_delay
    gcongr

/-- C5 witness at 120 vs 240 BPM with multiplier 1. -/
theorem light_pattern_delay_spec_witness :
    random_lights_delay 120 1 = max (60 / (120 * 1)) (1 / 10) ∧
    1 / 10 ≤ random_lights_delay 120 1 ∧
    random_lights_delay 240 1 ≤ random_lights_delay 120 1 ∧
    show_light_pattern_delay 240 ≤ show_light_pattern_delay 120 :=
  light_pattern_delay_spec 120 240 1 (by norm_num) (by norm_num) (Or.inl rfl)

/-- C6: in soundboard mode, pressing RED while already on the maximum
bank leaves the bank number and the whole cache state (in particular the
soundboard sample map) unchanged and plays the BANK_OUT_OF_RANGE asset;
symmetrically for BLUE on bank 0. -/
theorem soundboard_bank_out_of_range (env : SoundboardEnv) (st : CacheState) :
    soundboard_step env MAX_BANK_NUMBER st "RED" =
      (MAX_BANK_NUMBER, st,
       [Event.playAsset "PRESS", Event.playAsset "BANK_OUT_OF_RANGE"]) ∧
    soundboard_step env 0 st "BLUE" =
      (0, st, [Event.playAsset "PRESS", Event.playAsset "BANK_OUT_OF_RANGE"]) :=
  ⟨rfl, rfl⟩

/-- C7: loading a bank whose directory exists replaces the soundboard
sample map with entries computed from the bank's files alone (every
previously cached soundboard entry is removed first, so the result does
not depend on the previous soundboard contents), and the asset map is
never touched, whether or not the directory exists. -/
theorem preload_clears_and_preserves_assets (st st' : CacheState) (d : Bool)
    (files : List WavFile) :
    (preload_soundboard_samples st d files).1.asset = st.asset ∧
    (preload_soundboard_samples st true files).1.soundboard =
      (preload_soundboard_samples st' true files).1.soundboard := by
  constructor
  · cases d with
    | false => rfl
    | true =>
      simp only [preload_soundboard_samples, if_pos]
      exact foldl_loadStep_asset _ _
  · simp only [preload_soundboard_samples, if_pos]
    exact foldl_loadStep_soundboard _ _ _ rfl

/-- C8: keypad decoding is total and exact: a pin vector absent from
`KEYPAD_LOOKUP` decodes to no key (`none`, never an error and never some
other key), and a vector present in the table decodes to exactly the
symbol the table assigns it. -/
theorem keypad_decode_total :
    (∀ v : PinVector, v ∉ KEYPAD_LOOKUP.map Prod.fst → lookupKeypad v = none) ∧
    (∀ p : PinVector × String, p ∈ KEYPAD_LOOKUP → lookupKeypad p.1 = some p.2) := by
  decide

/-- C8 witness: the all-released vector is not in the table and decodes
to no key; the RED vector decodes to "RED". -/
theorem keypad_decode_total_witness :
    lookupKeypad (false, false, false, false) = none ∧
    lookupKeypad (true, true, false, false) = some "RED" :=
  ⟨keypad_decode_total.1 (false, false, false, false) (by decide),
   keypad_decode_total.2 ((true, true, false, false), "RED") (by decide)⟩

/-- C9: the majority vote of N ≥ 1 identical keypad samples is that very
sample, so decoding a constant sample sequence through
`read_keypad_input` yields the same key symbol as a single table lookup
of the sample. -/
theorem majority_vote_identity (v : PinVector) (N : Nat) (hN : 1 ≤ N)
    (_hv : v ∈ KEYPAD_LOOKUP.map Prod.fst) :
    majority_vote (List.replicate N v) = some v ∧
    read_keypad_input (List.replicate N v) = lookupKeypad v := by
  have hd : (List.replicate N v).dedup = [v] :=
    List.replicate_dedup (Nat.one_le_iff_ne_zero.mp hN)
  have hm : majority_vote (List.replicate N v) = some v := by
    unfold majority_vote
    rw [hd]
    exact List.argmax_singleton
  refine ⟨hm, ?_⟩
  simp [read_keypad_input, KEYPAD_TAKE_SAMPLES, hm]

/-- C9 witness: ten identical RED samples decode like a single RED
lookup. -/
theorem majority_vote_identity_witness :
    majority_vote (List.replicate 10 ((true, true, false, false) : PinVector)) =
      some (true, true, false, false) ∧
    read_keypad_input
        (List.replicate 10 ((true, true, false, false) : PinVector)) =
      lookupKeypad (true, true, false, false) :=
  majority_vote_identity (true, true, false, false) 10 (by decide) (by decide)

/-- C10: when the requested bank's directory does not exist,
`preload_soundboard_samples` returns before clearing anything: the whole
cache state (both sample maps, so every entry of the previously loaded
bank) is returned unchanged, and only the lamp on/off feedback happens. -/
theorem preload_missing_dir_noop (st : CacheState) (files : List WavFile) :
    preload_soundboard_samples st false files =
      (st, [Event.setAllLamps true, Event.setAllLamps false]) :=
  rfl
